import Mathlib

/-!
# Verification of the cpuprofiler wrapper

Shallow embedding of the `cpuprofiler` crate (`src/lib.rs`, `src/error.rs`):
a two-state profiler handle guarding the native `ProfilerStart`/`ProfilerStop`
entry points.  External effects are modelled as explicit inputs:

* the filesystem metadata lookup (`fs::metadata`) is an oracle
  `List Nat → Except IoErr Metadata` mapping a path (byte sequence) to its
  metadata or an OS error;
* the native start call (`ProfilerStart`) is an oracle integer status
  (the `i32` it returns).

The results of `start` and `stop` record, besides the returned
`Result`-value and the updated `Profiler`, whether the filesystem oracle
was consulted and whether the native entry point was invoked, so that
ordering/"no side effect before rejection" properties can be stated.
-/

namespace Cpuprofiler

/-- The state of the profiler (`enum ProfilerState` in `src/lib.rs`):
`Active` when the profiler is active, `NotActive` when it is inactive.
The enum is closed: no other states are representable. -/
inductive ProfilerState where
  | Active : ProfilerState
  | NotActive : ProfilerState
deriving DecidableEq, Repr

/-- Display rendering of `ProfilerState` (`impl fmt::Display for ProfilerState`):
`Active` renders as "Active", `NotActive` renders as "NotActive". -/
def ProfilerState.display : ProfilerState → String
  | ProfilerState.Active => "Active"
  | ProfilerState.NotActive => "NotActive"

/-- Category of an OS-level I/O error (`std::io::ErrorKind`), restricted to
the categories the wrapper constructs itself plus an opaque OS-reported one. -/
inductive IoKind where
  | notFound : IoKind
  | permissionDenied : IoKind
  | other : Nat → IoKind
deriving DecidableEq, Repr

/-- An `std::io::Error` value: its category and its message. -/
structure IoErr where
  kind : IoKind
  msg : String
deriving DecidableEq, Repr

/-- The error taxonomy of `src/error.rs` (`error_chain!`): the foreign links
`Io` (here `IoErr`, wrapping an `io::Error`), `Nul` (an embedded null byte in
the filename, the spec's "Encoding" category; the `NulError` payload — the
position of the null byte — is not modelled, no claim mentions it) and
`Utf8` (invalid UTF-8; the `Utf8Error` payload is likewise not modelled),
plus the two domain kinds `InternalError` and `InvalidState(state)`. -/
inductive ErrorKind where
  | IoErr : IoErr → ErrorKind
  | Nul : ErrorKind
  | Utf8 : ErrorKind
  | InternalError : ErrorKind
  | InvalidState : ProfilerState → ErrorKind
deriving DecidableEq, Repr

/-- Display rendering of the error kinds, from the `display(...)` clauses of
`error_chain!` in `src/error.rs` (for the two domain kinds) and the standard
library's `Display` for the foreign links. -/
def ErrorKind.display : ErrorKind → String
  | ErrorKind.IoErr e => e.msg
  | ErrorKind.Nul => "nul byte found in provided data"
  | ErrorKind.Utf8 => "invalid utf-8 sequence"
  | ErrorKind.InternalError => "Internal library error!"
  | ErrorKind.InvalidState s =>
      "Operation is invalid for profiler state: " ++ s.display

/-- The `Profiler` struct (`src/lib.rs`): a record holding exactly one
field, the current state. -/
structure Profiler where
  state : ProfilerState
deriving DecidableEq, Repr

/-- The initial value of the process-wide singleton
`PROFILER: Mutex<Profiler>` (the `lazy_static!` block in `src/lib.rs`):
a `Profiler` in the `NotActive` state.  The mutex itself serializes
access; sequential runs over this value model the serialized history. -/
def PROFILER : Profiler :=
  { state := ProfilerState.NotActive }

/-- True iff the byte sequence contains a null byte — the condition under
which `CString::new` fails with a `NulError`. -/
def hasNulByte (bs : List Nat) : Bool :=
  bs.contains 0

/-- Model of `CString::new(fname)`: fails iff the input contains a null
byte; otherwise the `CString` holds exactly the input bytes (the appended
terminator is only material at the FFI boundary, which is opaque here). -/
def cstringNew (bs : List Nat) : Option (List Nat) :=
  if hasNulByte bs then none else some bs

/-- True iff the byte is a UTF-8 continuation byte (`0x80..=0xBF`). -/
def isUtf8Cont (b : Nat) : Bool :=
  0x80 ≤ b && b ≤ 0xBF

/-- UTF-8 validity of a byte sequence, mirroring the standard library's
`str::from_utf8` validation (which `CString::to_str` calls): ASCII bytes
stand alone; 2-byte sequences start `0xC2..=0xDF`; 3-byte sequences exclude
overlong forms (lead `0xE0` requires `0xA0..=0xBF`) and surrogates (lead
`0xED` requires `0x80..=0x9F`); 4-byte sequences exclude overlong forms
(lead `0xF0` requires `0x90..=0xBF`) and code points above U+10FFFF (lead
`0xF4` requires `0x80..=0x8F`). -/
def utf8Valid : List Nat → Bool
  | [] => true
  | b :: l =>
    if b ≤ 0x7F then utf8Valid l
    else if 0xC2 ≤ b && b ≤ 0xDF then
      match l with
      | b2 :: l2 => isUtf8Cont b2 && utf8Valid l2
      | [] => false
    else if b = 0xE0 then
      match l with
      | b2 :: b3 :: l3 =>
          (0xA0 ≤ b2 && b2 ≤ 0xBF) && isUtf8Cont b3 && utf8Valid l3
      | _ => false
    else if (0xE1 ≤ b && b ≤ 0xEC) || b = 0xEE || b = 0xEF then
      match l with
      | b2 :: b3 :: l3 => isUtf8Cont b2 && isUtf8Cont b3 && utf8Valid l3
      | _ => false
    else if b = 0xED then
      match l with
      | b2 :: b3 :: l3 =>
          (0x80 ≤ b2 && b2 ≤ 0x9F) && isUtf8Cont b3 && utf8Valid l3
      | _ => false
    else if b = 0xF0 then
      match l with
      | b2 :: b3 :: b4 :: l4 =>
          (0x90 ≤ b2 && b2 ≤ 0xBF) && isUtf8Cont b3 && isUtf8Cont b4 &&
            utf8Valid l4
      | _ => false
    else if 0xF1 ≤ b && b ≤ 0xF3 then
      match l with
      | b2 :: b3 :: b4 :: l4 =>
          isUtf8Cont b2 && isUtf8Cont b3 && isUtf8Cont b4 && utf8Valid l4
      | _ => false
    else if b = 0xF4 then
      match l with
      | b2 :: b3 :: b4 :: l4 =>
          (0x80 ≤ b2 && b2 ≤ 0x8F) && isUtf8Cont b3 && isUtf8Cont b4 &&
            utf8Valid l4
      | _ => false
    else false

/-- Filesystem metadata of a path, as far as `Profiler::start` inspects it:
`metadata.is_file()` and `metadata.permissions().readonly()`. -/
structure Metadata where
  is_file : Bool
  readonly : Bool
deriving DecidableEq, Repr

/-- Decidable equality for `Except` results, so that outcomes of `start`
and `stop` can be compared by `decide` in concrete runs. -/
instance {ε α : Type} [DecidableEq ε] [DecidableEq α] :
    DecidableEq (Except ε α) := fun a b =>
  match a, b with
  | Except.ok x, Except.ok y =>
    if h : x = y then isTrue (by rw [h]) else isFalse (by simp [h])
  | Except.error x, Except.error y =>
    if h : x = y then isTrue (by rw [h]) else isFalse (by simp [h])
  | Except.ok _, Except.error _ => isFalse (by simp)
  | Except.error _, Except.ok _ => isFalse (by simp)

/-- Outcome of one invocation of `Profiler::start`: the returned
`Result<(), Error>` (projected to its `ErrorKind`), the profiler value
after the call, whether `fs::metadata` was consulted, and whether the
native `ProfilerStart` entry point was invoked. -/
structure StartResult where
  ret : Except ErrorKind Unit
  profiler : Profiler
  fsAccessed : Bool
  nativeCalled : Bool
deriving DecidableEq, Repr

/-- `Profiler::start` (`src/lib.rs` lines 132-156).  `fname` is the filename
byte sequence, `fs` the filesystem metadata oracle, `nativeRes` the `i32`
status the native `ProfilerStart` would return.  Faithful to the source:
state check, then `CString::new`, then `to_str` (UTF-8), then
`fs::metadata`, then `is_file`, then `readonly`, then the native call whose
zero status means failure. -/
def Profiler.start (p : Profiler) (fname : List Nat)
    (fs : List Nat → Except IoErr Metadata) (nativeRes : Int) : StartResult :=
  if p.state = ProfilerState.NotActive then
    match cstringNew fname with
    | none =>
        { ret := Except.error ErrorKind.Nul, profiler := p,
          fsAccessed := false, nativeCalled := false }
    | some c_fname =>
      if utf8Valid c_fname then
        match fs c_fname with
        | Except.error e =>
            { ret := Except.error (ErrorKind.IoErr e), profiler := p,
              fsAccessed := true, nativeCalled := false }
        | Except.ok metadata =>
          if !metadata.is_file then
            { ret := Except.error (ErrorKind.IoErr
                ⟨IoKind.notFound, "Invalid file for profile"⟩),
              profiler := p, fsAccessed := true, nativeCalled := false }
          else if metadata.readonly then
            { ret := Except.error (ErrorKind.IoErr
                ⟨IoKind.permissionDenied, "File is readonly"⟩),
              profiler := p, fsAccessed := true, nativeCalled := false }
          else if nativeRes = 0 then
            { ret := Except.error ErrorKind.InternalError, profiler := p,
              fsAccessed := true, nativeCalled := true }
          else
            { ret := Except.ok (), profiler := { state := ProfilerState.Active },
              fsAccessed := true, nativeCalled := true }
      else
        { ret := Except.error ErrorKind.Utf8, profiler := p,
          fsAccessed := false, nativeCalled := false }
  else
    { ret := Except.error (ErrorKind.InvalidState p.state), profiler := p,
      fsAccessed := false, nativeCalled := false }

/-- Outcome of one invocation of `Profiler::stop`: the returned result,
the profiler value after the call, and whether the native `ProfilerStop`
entry point was invoked. -/
structure StopResult where
  ret : Except ErrorKind Unit
  profiler : Profiler
  nativeStopCalled : Bool
deriving DecidableEq, Repr

/-- `Profiler::stop` (`src/lib.rs` lines 166-176): if the state is `Active`,
invoke `ProfilerStop`, set the state to `NotActive` and return `Ok(())`;
otherwise return `InvalidState(state)` without any native call. -/
def Profiler.stop (p : Profiler) : StopResult :=
  if p.state = ProfilerState.Active then
    { ret := Except.ok (), profiler := { state := ProfilerState.NotActive },
      nativeStopCalled := true }
  else
    { ret := Except.error (ErrorKind.InvalidState p.state), profiler := p,
      nativeStopCalled := false }

/-- A filesystem oracle for concrete runs: every path resolves to a
writable regular file. -/
def fsAllOk : List Nat → Except IoErr Metadata :=
  fun _ => Except.ok { is_file := true, readonly := false }

/-- Profiler values reachable from the singleton's initial value by the
`start`/`stop` operations — the only code paths that mutate the private
`state` field of `Profiler` (the field is not `pub`, so no other mutation
exists). -/
inductive Reachable : Profiler → Prop where
  | init : Reachable PROFILER
  | viaStart (p : Profiler) (fname : List Nat)
      (fs : List Nat → Except IoErr Metadata) (nativeRes : Int) :
      Reachable p → Reachable (p.start fname fs nativeRes).profiler
  | viaStop (p : Profiler) : Reachable p → Reachable p.stop.profiler

/-- True iff the first list is an initial segment of the second. -/
def isInitSeg : List Char → List Char → Bool
  | [], _ => true
  | _ :: _, [] => false
  | a :: as, b :: bs => a == b && isInitSeg as bs

/-- True iff `needle` occurs contiguously somewhere in the second list. -/
def listHasSub (needle : List Char) : List Char → Bool
  | [] => needle.isEmpty
  | c :: rest => isInitSeg needle (c :: rest) || listHasSub needle rest

/-- True iff `needle` occurs as a contiguous substring of `hay`. -/
def strContainsSub (hay needle : String) : Bool :=
  listHasSub needle.data hay.data

/-- One caller's invocation of `start` under the lock: its filename, its
view of the filesystem, and the native status its attempt would get. -/
structure StartCall where
  fname : List Nat
  fs : List Nat → Except IoErr Metadata
  res : Int

/-- A call whose validation would fully pass and whose native status
signals success. -/
def StartCall.valid (c : StartCall) : Prop :=
  hasNulByte c.fname = false ∧ utf8Valid c.fname = true ∧
    (∃ md : Metadata, c.fs c.fname = Except.ok md ∧ md.is_file = true ∧
      md.readonly = false) ∧
    c.res ≠ 0

/-- Serialized execution of concurrent `start` callers: the mutex admits
the callers one at a time, each holding the lock across its whole
validation-and-native-call sequence, so any interleaving is some order of
atomic `start` steps on the shared profiler.  Returns every caller's
result and the final profiler. -/
def runStarts (p : Profiler) : List StartCall → List StartResult × Profiler
  | [] => ([], p)
  | c :: cs =>
    ((p.start c.fname c.fs c.res) ::
        (runStarts (p.start c.fname c.fs c.res).profiler cs).1,
      (runStarts (p.start c.fname c.fs c.res).profiler cs).2)

example :
    (PROFILER.start [97] fsAllOk 1).ret = Except.ok () := by decide

example :
    (PROFILER.start [97, 0] fsAllOk 1).ret = Except.error ErrorKind.Nul := by
  decide

example :
    (PROFILER.start [0xFF] fsAllOk 1).ret = Except.error ErrorKind.Utf8 := by
  decide

example :
    (PROFILER.start [97] fsAllOk 0).ret =
      Except.error ErrorKind.InternalError := by decide

example : (Profiler.mk ProfilerState.Active).stop.ret = Except.ok () := by
  decide

/-- Case analysis on `Profiler.start`: either it succeeds and the profiler
moves to `Active`, or it fails with some error and the profiler value is
exactly the input one. -/
theorem start_cases (p : Profiler) (fname : List Nat)
    (fs : List Nat → Except IoErr Metadata) (nativeRes : Int) :
    ((p.start fname fs nativeRes).ret = Except.ok () ∧
      (p.start fname fs nativeRes).profiler = ⟨ProfilerState.Active⟩)
    ∨ ((∃ e, (p.start fname fs nativeRes).ret = Except.error e) ∧
      (p.start fname fs nativeRes).profiler = p) := by
  unfold Profiler.start
  repeat' split
  all_goals simp

/-- C2: whenever `start` returns any error, the profiler is exactly what it
was before the call; in particular an `InternalError` return leaves the
state `NotActive`, so the caller can retry `start`. -/
theorem start_error_leaves_state_unchanged (p : Profiler) (fname : List Nat)
    (fs : List Nat → Except IoErr Metadata) (nativeRes : Int) :
    (∀ e : ErrorKind, (p.start fname fs nativeRes).ret = Except.error e →
      (p.start fname fs nativeRes).profiler = p)
    ∧ ((p.start fname fs nativeRes).ret = Except.error ErrorKind.InternalError →
      (p.start fname fs nativeRes).profiler = p ∧
        (p.start fname fs nativeRes).profiler.state = ProfilerState.NotActive) := by
  have hcase := start_cases p fname fs nativeRes
  constructor
  · intro e he
    rcases hcase with ⟨hok, _⟩ | ⟨_, hp⟩
    · rw [hok] at he
      exact absurd he (by simp)
    · exact hp
  · intro he
    rcases hcase with ⟨hok, _⟩ | ⟨_, hp⟩
    · rw [hok] at he
      exact absurd he (by simp)
    · refine ⟨hp, ?_⟩
      rw [hp]
      by_contra hns
      have hact : p.state = ProfilerState.Active := by
        cases h : p.state
        · rfl
        · exact absurd h hns
      have : (p.start fname fs nativeRes).ret =
          Except.error (ErrorKind.InvalidState p.state) := by
        unfold Profiler.start
        rw [hact]
        simp
      rw [this, hact] at he
      simp at he

/-- Witness for C2 at a concrete input: a failed native call (status 0)
leaves the profiler unchanged and `NotActive`. -/
theorem start_error_leaves_state_unchanged_witness :
    (PROFILER.start [97] fsAllOk 0).profiler = PROFILER ∧
      (PROFILER.start [97] fsAllOk 0).profiler.state =
        ProfilerState.NotActive :=
  (start_error_leaves_state_unchanged PROFILER [97] fsAllOk 0).2 (by decide)

/-- C3: `start` on an `Active` profiler and `stop` on a `NotActive`
profiler are rejected with `InvalidState` carrying the current state, the
profiler is unchanged, and neither the filesystem nor a native entry point
is touched. -/
theorem invalid_state_pure_rejection (p : Profiler) (fname : List Nat)
    (fs : List Nat → Except IoErr Metadata) (nativeRes : Int) :
    (p.state = ProfilerState.Active →
      p.start fname fs nativeRes =
        { ret := Except.error (ErrorKind.InvalidState ProfilerState.Active),
          profiler := p, fsAccessed := false, nativeCalled := false })
    ∧ (p.state = ProfilerState.NotActive →
      p.stop =
        { ret := Except.error (ErrorKind.InvalidState ProfilerState.NotActive),
          profiler := p, nativeStopCalled := false }) := by
  constructor
  · intro h
    unfold Profiler.start
    rw [h]
    simp
  · intro h
    unfold Profiler.stop
    rw [h]
    simp

/-- Witness for C3 at concrete inputs: an `Active` profiler rejects
`start`, a `NotActive` profiler rejects `stop`. -/
theorem invalid_state_pure_rejection_witness :
    (Profiler.mk ProfilerState.Active).start [97] fsAllOk 1 =
      { ret := Except.error (ErrorKind.InvalidState ProfilerState.Active),
        profiler := Profiler.mk ProfilerState.Active,
        fsAccessed := false, nativeCalled := false }
    ∧ (Profiler.mk ProfilerState.NotActive).stop =
      { ret := Except.error (ErrorKind.InvalidState ProfilerState.NotActive),
        profiler := Profiler.mk ProfilerState.NotActive,
        nativeStopCalled := false } :=
  ⟨(invalid_state_pure_rejection ⟨ProfilerState.Active⟩ [97] fsAllOk 1).1 rfl,
   (invalid_state_pure_rejection ⟨ProfilerState.NotActive⟩ [97] fsAllOk 1).2 rfl⟩

/-- C4: `stop` on an `Active` profiler invokes the native stop entry
point, transitions to `NotActive`, and returns success; it never fails
when its precondition holds. -/
theorem stop_active_succeeds (p : Profiler)
    (h : p.state = ProfilerState.Active) :
    p.stop =
      { ret := Except.ok (), profiler := ⟨ProfilerState.NotActive⟩,
        nativeStopCalled := true } := by
  unfold Profiler.stop
  rw [h]
  simp

/-- Witness for C4: stopping a concrete `Active` profiler. -/
theorem stop_active_succeeds_witness :
    (Profiler.mk ProfilerState.Active).stop =
      { ret := Except.ok (), profiler := ⟨ProfilerState.NotActive⟩,
        nativeStopCalled := true } :=
  stop_active_succeeds ⟨ProfilerState.Active⟩ rfl

/-- Characterization of a failing `CString::new`. -/
theorem cstringNew_none_iff (bs : List Nat) :
    cstringNew bs = none ↔ hasNulByte bs = true := by
  unfold cstringNew
  by_cases h : hasNulByte bs <;> simp [h]

/-- Characterization of a succeeding `CString::new`: the bytes are
null-free and are returned unchanged. -/
theorem cstringNew_some_iff (bs c : List Nat) :
    cstringNew bs = some c ↔ (hasNulByte bs = false ∧ c = bs) := by
  unfold cstringNew
  by_cases h : hasNulByte bs <;> simp [h, eq_comm]

/-- C1: from `NotActive`, `start` performs its checks in the fixed order
null-byte encoding, UTF-8, filesystem metadata, regular-file, read-only,
and only then the native call; the first failing check determines the
error, and in each failing case the result is the same for every later
oracle (the quantified `fs` and `nativeRes`), so no later check runs. -/
theorem start_validation_order (p : Profiler) (fname : List Nat)
    (fs : List Nat → Except IoErr Metadata) (nativeRes : Int)
    (hstate : p.state = ProfilerState.NotActive) :
    (hasNulByte fname = true →
      p.start fname fs nativeRes =
        { ret := Except.error ErrorKind.Nul, profiler := p,
          fsAccessed := false, nativeCalled := false })
    ∧ (hasNulByte fname = false → utf8Valid fname = false →
      p.start fname fs nativeRes =
        { ret := Except.error ErrorKind.Utf8, profiler := p,
          fsAccessed := false, nativeCalled := false })
    ∧ (∀ e : IoErr, hasNulByte fname = false → utf8Valid fname = true →
      fs fname = Except.error e →
      p.start fname fs nativeRes =
        { ret := Except.error (ErrorKind.IoErr e), profiler := p,
          fsAccessed := true, nativeCalled := false })
    ∧ (∀ md : Metadata, hasNulByte fname = false → utf8Valid fname = true →
      fs fname = Except.ok md → md.is_file = false →
      p.start fname fs nativeRes =
        { ret := Except.error (ErrorKind.IoErr
            ⟨IoKind.notFound, "Invalid file for profile"⟩),
          profiler := p, fsAccessed := true, nativeCalled := false })
    ∧ (∀ md : Metadata, hasNulByte fname = false → utf8Valid fname = true →
      fs fname = Except.ok md → md.is_file = true → md.readonly = true →
      p.start fname fs nativeRes =
        { ret := Except.error (ErrorKind.IoErr
            ⟨IoKind.permissionDenied, "File is readonly"⟩),
          profiler := p, fsAccessed := true, nativeCalled := false })
    ∧ (∀ md : Metadata, hasNulByte fname = false → utf8Valid fname = true →
      fs fname = Except.ok md → md.is_file = true → md.readonly = false →
      (p.start fname fs nativeRes).nativeCalled = true) := by
  have hsome : hasNulByte fname = false → cstringNew fname = some fname := by
    intro h
    exact (cstringNew_some_iff fname fname).mpr ⟨h, rfl⟩
  refine ⟨?_, ?_, ?_, ?_, ?_, ?_⟩
  · intro hnul
    unfold Profiler.start
    rw [hstate, (cstringNew_none_iff fname).mpr hnul]
    simp
  · intro hnul hutf
    unfold Profiler.start
    rw [hstate, hsome hnul]
    simp [hutf]
  · intro e hnul hutf hfs
    unfold Profiler.start
    rw [hstate, hsome hnul]
    simp [hutf, hfs]
  · intro md hnul hutf hfs hfile
    unfold Profiler.start
    rw [hstate, hsome hnul]
    simp [hutf, hfs, hfile]
  · intro md hnul hutf hfs hfile hro
    unfold Profiler.start
    rw [hstate, hsome hnul]
    simp [hutf, hfs, hfile, hro]
  · intro md hnul hutf hfs hfile hro
    unfold Profiler.start
    rw [hstate, hsome hnul]
    by_cases hz : nativeRes = 0 <;> simp [hutf, hfs, hfile, hro, hz]

/-- Witness for C1: each branch of the validation order exercised at a
concrete input — a null byte, an invalid UTF-8 byte, a metadata error, a
non-regular file, a read-only file, and a fully valid path. -/
theorem start_validation_order_witness :
    (PROFILER.start [0] fsAllOk 1 =
      { ret := Except.error ErrorKind.Nul, profiler := PROFILER,
        fsAccessed := false, nativeCalled := false })
    ∧ (PROFILER.start [0xFF] fsAllOk 1 =
      { ret := Except.error ErrorKind.Utf8, profiler := PROFILER,
        fsAccessed := false, nativeCalled := false })
    ∧ (PROFILER.start [97]
        (fun _ => Except.error ⟨IoKind.other 2, "No such file or directory"⟩)
        1 =
      { ret := Except.error (ErrorKind.IoErr
          ⟨IoKind.other 2, "No such file or directory"⟩),
        profiler := PROFILER, fsAccessed := true, nativeCalled := false })
    ∧ (PROFILER.start [97]
        (fun _ => Except.ok { is_file := false, readonly := false }) 1 =
      { ret := Except.error (ErrorKind.IoErr
          ⟨IoKind.notFound, "Invalid file for profile"⟩),
        profiler := PROFILER, fsAccessed := true, nativeCalled := false })
    ∧ (PROFILER.start [97]
        (fun _ => Except.ok { is_file := true, readonly := true }) 1 =
      { ret := Except.error (ErrorKind.IoErr
          ⟨IoKind.permissionDenied, "File is readonly"⟩),
        profiler := PROFILER, fsAccessed := true, nativeCalled := false })
    ∧ (PROFILER.start [97] fsAllOk 1).nativeCalled = true :=
  ⟨(start_validation_order PROFILER [0] fsAllOk 1 rfl).1 rfl,
   (start_validation_order PROFILER [0xFF] fsAllOk 1 rfl).2.1 rfl rfl,
   (start_validation_order PROFILER [97]
      (fun _ => Except.error ⟨IoKind.other 2, "No such file or directory"⟩)
      1 rfl).2.2.1 ⟨IoKind.other 2, "No such file or directory"⟩ rfl rfl rfl,
   (start_validation_order PROFILER [97]
      (fun _ => Except.ok { is_file := false, readonly := false })
      1 rfl).2.2.2.1 { is_file := false, readonly := false } rfl rfl rfl rfl,
   (start_validation_order PROFILER [97]
      (fun _ => Except.ok { is_file := true, readonly := true })
      1 rfl).2.2.2.2.1 { is_file := true, readonly := true } rfl rfl rfl rfl
      rfl,
   (start_validation_order PROFILER [97] fsAllOk 1 rfl).2.2.2.2.2
      { is_file := true, readonly := false } rfl rfl rfl rfl rfl⟩

/-- C5: once every validation check passes, the native status decides the
outcome: a nonzero status transitions `NotActive` to `Active` with
success, a zero status returns `InternalError` and leaves the profiler
unchanged (hence still `NotActive`). -/
theorem start_native_status_decides (p : Profiler) (fname : List Nat)
    (fs : List Nat → Except IoErr Metadata) (nativeRes : Int) (md : Metadata)
    (hstate : p.state = ProfilerState.NotActive)
    (hnul : hasNulByte fname = false)
    (hutf : utf8Valid fname = true)
    (hfs : fs fname = Except.ok md)
    (hfile : md.is_file = true)
    (hro : md.readonly = false) :
    (nativeRes ≠ 0 →
      p.start fname fs nativeRes =
        { ret := Except.ok (), profiler := ⟨ProfilerState.Active⟩,
          fsAccessed := true, nativeCalled := true })
    ∧ (nativeRes = 0 →
      p.start fname fs nativeRes =
        { ret := Except.error ErrorKind.InternalError, profiler := p,
          fsAccessed := true, nativeCalled := true }) := by
  have hc : cstringNew fname = some fname := by
    unfold cstringNew
    rw [hnul]
    simp
  constructor
  · intro hnz
    unfold Profiler.start
    rw [hstate, hc]
    simp [hutf, hfs, hfile, hro, hnz]
  · intro hz
    unfold Profiler.start
    rw [hstate, hc]
    simp [hutf, hfs, hfile, hro, hz]

/-- Witness for C5 at concrete inputs: native status 1 starts the
profiler, native status 0 yields `InternalError`. -/
theorem start_native_status_decides_witness :
    ((PROFILER.start [97] fsAllOk 1).ret = Except.ok () ∧
      (PROFILER.start [97] fsAllOk 1).profiler.state = ProfilerState.Active)
    ∧ ((PROFILER.start [97] fsAllOk 0).ret =
        Except.error ErrorKind.InternalError ∧
      (PROFILER.start [97] fsAllOk 0).profiler.state =
        ProfilerState.NotActive) := by
  have h1 := (start_native_status_decides PROFILER [97] fsAllOk 1
    { is_file := true, readonly := false } rfl rfl rfl rfl rfl rfl).1
    (by decide)
  have h0 := (start_native_status_decides PROFILER [97] fsAllOk 0
    { is_file := true, readonly := false } rfl rfl rfl rfl rfl rfl).2 rfl
  rw [h1, h0]
  exact ⟨⟨rfl, rfl⟩, ⟨rfl, rfl⟩⟩

/-- Link between the native call flag and the result of `start`: when the
native start entry point was invoked, the call either succeeded or failed
with `InternalError`. -/
theorem start_nativeCalled_ret (p : Profiler) (fname : List Nat)
    (fs : List Nat → Except IoErr Metadata) (nativeRes : Int) :
    (p.start fname fs nativeRes).nativeCalled = true →
      (p.start fname fs nativeRes).ret = Except.ok () ∨
      (p.start fname fs nativeRes).ret =
        Except.error ErrorKind.InternalError := by
  unfold Profiler.start
  repeat' split
  all_goals simp

/-- C7: the native start entry point is invoked only from `NotActive` with
every validation check passed; validation and state failures (`Nul`,
`Utf8`, `IoErr`, `InvalidState`) imply the native start entry point was
not invoked; and the native stop entry point is invoked only from
`Active`. -/
theorem native_calls_guarded (p : Profiler) (fname : List Nat)
    (fs : List Nat → Except IoErr Metadata) (nativeRes : Int) :
    ((p.start fname fs nativeRes).nativeCalled = true →
      p.state = ProfilerState.NotActive ∧ hasNulByte fname = false ∧
        utf8Valid fname = true ∧
        ∃ md : Metadata, fs fname = Except.ok md ∧ md.is_file = true ∧
          md.readonly = false)
    ∧ (∀ e : ErrorKind, (p.start fname fs nativeRes).ret = Except.error e →
        (e = ErrorKind.Nul ∨ e = ErrorKind.Utf8 ∨
          (∃ ioe : IoErr, e = ErrorKind.IoErr ioe) ∨
          (∃ s : ProfilerState, e = ErrorKind.InvalidState s)) →
        (p.start fname fs nativeRes).nativeCalled = false)
    ∧ (p.stop.nativeStopCalled = true → p.state = ProfilerState.Active) := by
  refine ⟨?_, ?_, ?_⟩
  · intro h
    unfold Profiler.start at h
    by_cases hs : p.state = ProfilerState.NotActive
    · rw [if_pos hs] at h
      cases hc : cstringNew fname with
      | none => rw [hc] at h; simp at h
      | some c =>
        obtain ⟨hnul, hcb⟩ := (cstringNew_some_iff fname c).mp hc
        rw [hc, hcb] at h
        by_cases hu : utf8Valid fname = true
        · cases hfs : fs fname with
          | error e => simp [hu, hfs] at h
          | ok md =>
            by_cases hf : md.is_file = true
            · by_cases hr : md.readonly = true
              · simp [hu, hfs, hf, hr] at h
              · exact ⟨hs, hnul, hu, md, rfl, hf, by simpa using hr⟩
            · have hf2 : md.is_file = false := by simpa using hf
              simp [hu, hfs, hf2] at h
        · have hu2 : utf8Valid fname = false := by simpa using hu
          simp [hu2] at h
    · rw [if_neg hs] at h
      simp at h
  · intro e he hshape
    rw [← Bool.not_eq_true]
    intro hcall
    rcases start_nativeCalled_ret p fname fs nativeRes hcall with hok | hint
    · rw [he] at hok
      simp at hok
    · rw [he] at hint
      rcases hshape with rfl | rfl | ⟨ioe, rfl⟩ | ⟨s, rfl⟩ <;> simp at hint
  · intro h
    unfold Profiler.stop at h
    by_cases hs : p.state = ProfilerState.Active
    · exact hs
    · rw [if_neg hs] at h
      simp at h

/-- Witness for C7: a successful concrete `start` has all its checks
recorded as passed; a concrete null-byte rejection did not invoke the
native entry point; a concrete `stop` that invoked the native stop entry
point was in `Active`. -/
theorem native_calls_guarded_witness :
    (PROFILER.state = ProfilerState.NotActive ∧ hasNulByte [97] = false ∧
      utf8Valid [97] = true ∧
      ∃ md : Metadata, fsAllOk [97] = Except.ok md ∧ md.is_file = true ∧
        md.readonly = false)
    ∧ (PROFILER.start [0] fsAllOk 1).nativeCalled = false
    ∧ (Profiler.mk ProfilerState.Active).state = ProfilerState.Active :=
  ⟨(native_calls_guarded PROFILER [97] fsAllOk 1).1 (by decide),
   (native_calls_guarded PROFILER [0] fsAllOk 1).2.1 ErrorKind.Nul
     (by decide) (Or.inl rfl),
   (native_calls_guarded ⟨ProfilerState.Active⟩ [97] fsAllOk 1).2.2
     (by decide)⟩

/-- C10: `start` and `stop` are deterministic functions of the current
state, the filename bytes, and the outcomes of the external calls — two
filesystem oracles agreeing on the supplied filename yield identical
results, and `stop` is determined solely by the current state. -/
theorem start_stop_deterministic :
    (∀ (p₁ p₂ : Profiler) (fname : List Nat)
        (fs₁ fs₂ : List Nat → Except IoErr Metadata) (nativeRes : Int),
      p₁.state = p₂.state → fs₁ fname = fs₂ fname →
      p₁.start fname fs₁ nativeRes = p₂.start fname fs₂ nativeRes)
    ∧ (∀ p₁ p₂ : Profiler, p₁.state = p₂.state → p₁.stop = p₂.stop) := by
  constructor
  · intro p₁ p₂ fname fs₁ fs₂ res hst hfs
    have hp : p₁ = p₂ := by
      cases p₁
      cases p₂
      simpa using hst
    subst hp
    unfold Profiler.start
    cases hc : cstringNew fname with
    | none => rfl
    | some c =>
      obtain ⟨_, hcb⟩ := (cstringNew_some_iff fname c).mp hc
      rw [hcb]
      simp only [hfs]
  · intro p₁ p₂ hst
    have hp : p₁ = p₂ := by
      cases p₁
      cases p₂
      simpa using hst
    subst hp
    rfl

/-- Witness for C10: two concrete filesystem oracles that agree on the
queried path (but differ elsewhere) give identical `start` results, and
two equal-state profilers have equal `stop` results. -/
theorem start_stop_deterministic_witness :
    PROFILER.start [97] fsAllOk 1 =
      PROFILER.start [97]
        (fun bs =>
          if bs = [97] then Except.ok { is_file := true, readonly := false }
          else Except.error ⟨IoKind.other 1, "unreachable"⟩) 1
    ∧ (Profiler.mk ProfilerState.Active).stop =
      (Profiler.mk ProfilerState.Active).stop :=
  ⟨start_stop_deterministic.1 PROFILER PROFILER [97] fsAllOk
    (fun bs =>
      if bs = [97] then Except.ok { is_file := true, readonly := false }
      else Except.error ⟨IoKind.other 1, "unreachable"⟩) 1 rfl (by decide),
   start_stop_deterministic.2 ⟨ProfilerState.Active⟩ ⟨ProfilerState.Active⟩
     rfl⟩

/-- C6: the process-wide singleton is created in the `NotActive` state, so
a fresh handle's `state()` accessor reports `NotActive`; every profiler
value reachable through the `start`/`stop` operations (the only mutators)
has a state that is one of the two closed-enum variants. -/
theorem profiler_singleton_lifecycle :
    PROFILER.state = ProfilerState.NotActive
    ∧ (∀ p : Profiler, Reachable p →
        p.state = ProfilerState.Active ∨
          p.state = ProfilerState.NotActive) := by
  refine ⟨rfl, ?_⟩
  intro p _
  cases h : p.state
  · exact Or.inl rfl
  · exact Or.inr rfl

/-- Witness for C6: applied to the reachable initial singleton value. -/
theorem profiler_singleton_lifecycle_witness :
    PROFILER.state = ProfilerState.Active ∨
      PROFILER.state = ProfilerState.NotActive :=
  profiler_singleton_lifecycle.2 PROFILER Reachable.init

/-- C9: the display renderings of `InvalidState(Active)` and
`InvalidState(NotActive)` are distinct, and each contains the carried
state's name. -/
theorem invalid_state_display_distinct :
    strContainsSub ((ErrorKind.InvalidState ProfilerState.Active).display)
        ("Active") = true
    ∧ strContainsSub ((ErrorKind.InvalidState ProfilerState.NotActive).display)
        ("NotActive") = true
    ∧ (ErrorKind.InvalidState ProfilerState.Active).display ≠
        (ErrorKind.InvalidState ProfilerState.NotActive).display := by
  refine ⟨by decide, by decide, by decide⟩

/-- Rejection of `start` from the `Active` state, as one equation. -/
theorem start_from_active (p : Profiler) (fname : List Nat)
    (fs : List Nat → Except IoErr Metadata) (nativeRes : Int)
    (h : p.state = ProfilerState.Active) :
    p.start fname fs nativeRes =
      { ret := Except.error (ErrorKind.InvalidState ProfilerState.Active),
        profiler := p, fsAccessed := false, nativeCalled := false } := by
  unfold Profiler.start
  rw [h]
  simp

/-- A fully valid `start` call from `NotActive` succeeds, moving the
profiler to `Active` with the native entry point invoked. -/
theorem start_valid_from_notActive (p : Profiler) (c : StartCall)
    (hs : p.state = ProfilerState.NotActive) (hv : c.valid) :
    p.start c.fname c.fs c.res =
      { ret := Except.ok (), profiler := ⟨ProfilerState.Active⟩,
        fsAccessed := true, nativeCalled := true } := by
  obtain ⟨hnul, hu, ⟨md, hfs, hf, hr⟩, hz⟩ := hv
  have hc : cstringNew c.fname = some c.fname :=
    (cstringNew_some_iff _ _).mpr ⟨hnul, rfl⟩
  unfold Profiler.start
  rw [hs, hc]
  simp [hu, hfs, hf, hr, hz]

/-- From an `Active` profiler, a serialized batch of `start` callers all
get `InvalidState(Active)`, never reach a native call, and leave the
profiler untouched. -/
theorem runStarts_from_active (calls : List StartCall) :
    ∀ p : Profiler, p.state = ProfilerState.Active →
      (∀ r ∈ (runStarts p calls).1,
        r.ret = Except.error (ErrorKind.InvalidState ProfilerState.Active) ∧
          r.nativeCalled = false)
      ∧ (runStarts p calls).2 = p := by
  induction calls with
  | nil =>
    intro p hp
    constructor
    · intro r hr
      simp [runStarts] at hr
    · rfl
  | cons c cs ih =>
    intro p hp
    have hstart := start_from_active p c.fname c.fs c.res hp
    have hnext : (p.start c.fname c.fs c.res).profiler = p := by rw [hstart]
    have hrec := ih (p.start c.fname c.fs c.res).profiler
      (by rw [hnext]; exact hp)
    constructor
    · intro r hr
      simp only [runStarts, List.mem_cons] at hr
      rcases hr with rfl | hr2
      · rw [hstart]
        exact ⟨rfl, rfl⟩
      · exact hrec.1 r hr2
    · simp only [runStarts]
      rw [hrec.2, hnext]

/-- C8: with every `start` holding the lock across its whole
validation-and-native-call sequence, any interleaving of concurrent valid
callers from `NotActive` is a serialized batch in which exactly the first
caller observes the `NotActive`-to-`Active` success, all others receive
`InvalidState`, and the native start entry point is invoked exactly
once. -/
theorem serialized_start_mutual_exclusion (calls : List StartCall)
    (hv : ∀ c ∈ calls, c.valid) (hne : calls ≠ []) :
    ((runStarts PROFILER calls).1.map (fun r => r.ret)).head? =
        some (Except.ok ())
    ∧ (∀ r ∈ (runStarts PROFILER calls).1.tail,
        r.ret = Except.error (ErrorKind.InvalidState ProfilerState.Active))
    ∧ (runStarts PROFILER calls).1.countP (fun r => r.nativeCalled) = 1
    ∧ (runStarts PROFILER calls).2.state = ProfilerState.Active := by
  cases calls with
  | nil => exact absurd rfl hne
  | cons c cs =>
    have hcv : c.valid := hv c (List.mem_cons_self c cs)
    have h1 := start_valid_from_notActive PROFILER c rfl hcv
    have hrec := runStarts_from_active cs
      (PROFILER.start c.fname c.fs c.res).profiler (by rw [h1])
    refine ⟨?_, ?_, ?_, ?_⟩
    · simp only [runStarts, List.map_cons, List.head?_cons]
      rw [h1]
    · intro r hr
      simp only [runStarts, List.tail_cons] at hr
      exact (hrec.1 r hr).1
    · have hz : ((runStarts (PROFILER.start c.fname c.fs c.res).profiler
          cs).1).countP (fun r => r.nativeCalled) = 0 := by
        rw [List.countP_eq_zero]
        intro r hr
        simp [(hrec.1 r hr).2]
      simp only [runStarts, List.countP_cons]
      rw [hz, h1]
      simp
    · simp only [runStarts]
      rw [hrec.2, h1]

/-- Witness for C8: two concrete valid callers — the first succeeds, the
second gets `InvalidState(Active)`, and exactly one native call occurs. -/
theorem serialized_start_mutual_exclusion_witness :
    ((runStarts PROFILER
        [⟨[97], fsAllOk, 1⟩, ⟨[98], fsAllOk, 1⟩]).1.map
          (fun r => r.ret)).head? = some (Except.ok ())
    ∧ (∀ r ∈ (runStarts PROFILER
        [⟨[97], fsAllOk, 1⟩, ⟨[98], fsAllOk, 1⟩]).1.tail,
        r.ret = Except.error (ErrorKind.InvalidState ProfilerState.Active))
    ∧ (runStarts PROFILER
        [⟨[97], fsAllOk, 1⟩, ⟨[98], fsAllOk, 1⟩]).1.countP
          (fun r => r.nativeCalled) = 1
    ∧ (runStarts PROFILER
        [⟨[97], fsAllOk, 1⟩, ⟨[98], fsAllOk, 1⟩]).2.state =
        ProfilerState.Active :=
  serialized_start_mutual_exclusion
    [⟨[97], fsAllOk, 1⟩, ⟨[98], fsAllOk, 1⟩]
    (by
      intro c hc
      simp only [List.mem_cons, List.not_mem_nil, or_false] at hc
      rcases hc with rfl | rfl
      · exact ⟨rfl, rfl, ⟨⟨true, false⟩, rfl, rfl, rfl⟩, by decide⟩
      · exact ⟨rfl, rfl, ⟨⟨true, false⟩, rfl, rfl, rfl⟩, by decide⟩)
    (List.cons_ne_nil _ _)

end Cpuprofiler
